import Mathlib

/-!
Verification of the ero-lapin AMQP lode adapter (src/src/lib.rs).

The adapter exposes four lifecycle callbacks — `init`, `aquire` (the
source's spelling), `release`, `close` — over an AMQP broker connection
borrowed from an external TCP-stream pool.  The callbacks are async Rust
futures; we embed them as pure functions whose extra arguments are the
outcomes of the external calls (stealing the transport resource,
the broker handshake, channel creation, QoS application) delivered at the
corresponding await points.  The shared `AtomicBool` liveness flag is
embedded as the boolean value the `load(Ordering::SeqCst)` call observes;
the heartbeat task's termination continuation is embedded as a function
from the flag's prior value and the heartbeat outcome to the new flag
value and the task's result.
-/

/-- `AmqpParams` (src/src/lib.rs:44-49): the configuration record, with
fields `user`, `pass`, `prefetch_count`. -/
structure AmqpParams where
  user : String
  pass : String
  prefetch_count : Nat
deriving DecidableEq, Repr

/-- The `Default` impl for `AmqpParams` (src/src/lib.rs:51-59). -/
def AmqpParams.defaultParams : AmqpParams :=
  { user := "guest", pass := "guest", prefetch_count := 32 }

/-- The field names of the `AmqpParams` struct, in declaration order
(src/src/lib.rs:44-49).  This is the whole configuration surface the
adapter recognizes. -/
def amqpParamsFields : List String := ["user", "pass", "prefetch_count"]

/-- Opaque handle to the external TCP-stream pool (`LodeResource<TcpStream>`). -/
structure LodeResource where
  id : Nat
deriving DecidableEq, Repr

/-- Opaque handle to the tokio task executor (`tokio::runtime::TaskExecutor`). -/
structure TaskExecutor where
  id : Nat
deriving DecidableEq, Repr

/-- Opaque handle to the broker client (`lapin_futures::client::Client<TcpStream>`). -/
structure Client where
  id : Nat
deriving DecidableEq, Repr

/-- `InitState` (src/src/lib.rs:93-97): the idle state, holding the
configuration, the TCP-pool handle and the executor handle. -/
structure InitState where
  amqp_params : AmqpParams
  tcp_lode : LodeResource
  executor : TaskExecutor
deriving DecidableEq, Repr

/-- `AmqpConnected` (src/src/lib.rs:99-103).  `heartbeat_gone` is the
value of the shared `Arc<AtomicBool>` cell as observed by the callback at
its `load(Ordering::SeqCst)` point. -/
structure AmqpConnected where
  init_state : InitState
  client : Client
  heartbeat_gone : Bool
deriving DecidableEq, Repr

/-- `ero::ErrorSeverity`: the two failure severities of the lode
contract.  `Recoverable` carries the resumable state, `Fatal` carries the
fatal error payload (here `Unit`, as in the source's
`ErrorSeverity<InitState, ()>`). -/
inductive ErrorSeverity (S : Type) (F : Type) where
  | Recoverable (state : S)
  | Fatal (error : F)
deriving DecidableEq, Repr

/-- `lapin_futures::client::ConnectionOptions`: the handshake options
record.  Only the fields the adapter touches plus the ones the claim set
mentions are kept. -/
structure ConnectionOptions where
  username : String
  password : String
  frame_max : Nat
  channel_max : Nat
  heartbeat : Nat
deriving DecidableEq, Repr

/-- The external client library's `Default` for `ConnectionOptions`
(fields the adapter leaves at their defaults). -/
def ConnectionOptions.defaultOptions : ConnectionOptions :=
  { username := "guest", password := "guest"
    frame_max := 0, channel_max := 0, heartbeat := 0 }

/-- The `ConnectionOptions` value `init` builds (src/src/lib.rs:119-124):
user and pass from the configuration, `frame_max` hard-coded to 262144,
everything else from `Default::default()`. -/
def connectionOptionsOf (amqp_params : AmqpParams) : ConnectionOptions :=
  { ConnectionOptions.defaultOptions with
      username := amqp_params.user
      password := amqp_params.pass
      frame_max := 262144 }

/-- Outcome of `tcp_lode.steal_resource()` (external collaborator,
spec §6 `borrow`).  On success the pool hands over one TCP stream
together with the pool handle itself; on failure (`Err(())`) the pool is
permanently gone. -/
inductive StealResult where
  | gone
  | ok (tcp_stream : Nat)
deriving DecidableEq, Repr

/-- Outcome of `client::Client::connect(tcp_stream, options)` (external
collaborator): the broker handshake either yields a client handle (plus
the heartbeat future, embedded separately as `heartbeatThen`) or an
error. -/
inductive ConnectResult where
  | ok (client : Client)
  | err (e : Nat)
deriving DecidableEq, Repr

/-- `init` (src/src/lib.rs:105-159).  Steals a TCP stream from the pool
(`Fatal(())` if the pool is gone), performs the broker handshake with
`connectionOptionsOf`; on success returns `AmqpConnected` with a freshly
created, false-initialized liveness flag; on handshake failure returns
`Recoverable` carrying the reconstructed `InitState`. -/
def init (init_state : InitState) (steal : StealResult)
    (connect : ConnectionOptions → ConnectResult) :
    Except (ErrorSeverity InitState Unit) AmqpConnected :=
  match init_state with
  | ⟨amqp_params, tcp_lode, executor⟩ =>
    match steal with
    | .gone => .error (.Fatal ())
    | .ok _tcp_stream =>
      match connect (connectionOptionsOf amqp_params) with
      | .ok client =>
          .ok { init_state := ⟨amqp_params, tcp_lode, executor⟩
                client := client
                heartbeat_gone := false }
      | .err _error =>
          .error (.Recoverable ⟨amqp_params, tcp_lode, executor⟩)

/-- The continuation `init` chains onto the heartbeat future
(src/src/lib.rs:134-144): on termination of the heartbeat, for any
outcome, store `true` into the liveness flag, then map the outcome to the
task's result.  Input: the flag's prior value and the heartbeat outcome;
output: the flag's new value and the task result. -/
def heartbeatThen (_flag : Bool) (heartbeat_result : Except Nat Unit) :
    Bool × Except Unit Unit :=
  (true,
    match heartbeat_result with
    | .ok () => .ok ()
    | .error _e => .error ())

/-- `BasicQosOptions` from the external client library: the QoS record
the adapter fills with the configured prefetch count. -/
structure BasicQosOptions where
  prefetch_count : Nat
  global : Bool
deriving DecidableEq, Repr

/-- The external client library's `Default` for `BasicQosOptions`. -/
def BasicQosOptions.defaultOptions : BasicQosOptions :=
  { prefetch_count := 0, global := false }

/-- A channel handle (`lapin_futures::channel::Channel<TcpStream>`):
its id, plus the QoS options the broker has applied to it, recording the
externally visible effect of a successful `basic_qos` call. -/
structure Channel where
  id : Nat
  qos : Option BasicQosOptions
deriving DecidableEq, Repr

/-- Outcome of `client.create_channel()` (external collaborator). -/
inductive CreateChannelResult where
  | ok (channel : Channel)
  | err (e : Nat)
deriving DecidableEq, Repr

/-- Outcome of `channel.basic_qos(options)` (external collaborator). -/
inductive QosResult where
  | ok
  | err (e : Nat)
deriving DecidableEq, Repr

/-- Semantics of the external `channel.basic_qos(options)` call: on
success the channel now carries the given QoS options; on failure the
channel is unchanged and the error is reported. -/
def basicQos (channel : Channel) (options : BasicQosOptions) (r : QosResult) :
    Except Nat Channel :=
  match r with
  | .ok => .ok { channel with qos := some options }
  | .err e => .error e

/-- `aquire` (src/src/lib.rs:161-207), the source's spelling of acquire.
Step 1: read the liveness flag; if true, `Recoverable(init_state)`.
Step 2: create a channel; on failure, `Recoverable(init_state)`.
Step 3: apply `basic_qos` with the configured `prefetch_count`; on
failure, `Recoverable(init_state)`.
Step 4: return the QoS-configured channel with the reassembled
`AmqpConnected`. -/
def aquire (connected : AmqpConnected) (createChannel : CreateChannelResult)
    (qosResult : QosResult) :
    Except (ErrorSeverity InitState Unit) (Channel × AmqpConnected) :=
  match connected with
  | ⟨init_state, client, heartbeat_gone⟩ =>
    if heartbeat_gone then
      .error (.Recoverable init_state)
    else
      match createChannel with
      | .err _e => .error (.Recoverable init_state)
      | .ok channel =>
        let connected2 : AmqpConnected := ⟨init_state, client, heartbeat_gone⟩
        match basicQos channel
            { BasicQosOptions.defaultOptions with
                prefetch_count := connected2.init_state.amqp_params.prefetch_count }
            qosResult with
        | .ok channel2 => .ok (channel2, connected2)
        | .error _e => .error (.Recoverable connected2.init_state)

/-- `release` (src/src/lib.rs:209-221).  Re-reads the liveness flag; if
true, `Recoverable(init_state)`; otherwise returns the `AmqpConnected`
unchanged.  The channel being handed back (`_maybe_session`) is ignored. -/
def release (connected : AmqpConnected) (_maybe_session : Option Channel) :
    Except (ErrorSeverity InitState Unit) AmqpConnected :=
  if connected.heartbeat_gone then
    .error (.Recoverable connected.init_state)
  else
    .ok connected

/-- `close` (src/src/lib.rs:223-229): unconditionally returns the
embedded `InitState`. -/
def close (connected : AmqpConnected) : Except Unit InitState :=
  .ok connected.init_state

/-! Sample concrete values used by the witness theorems. -/

/-- A sample `InitState`. -/
def sampleInitState : InitState :=
  { amqp_params := AmqpParams.defaultParams
    tcp_lode := { id := 1 }
    executor := { id := 2 } }

/-- A sample `AmqpConnected` with the liveness flag still false. -/
def sampleConnectedLive : AmqpConnected :=
  { init_state := sampleInitState, client := { id := 3 }, heartbeat_gone := false }

/-- A sample `AmqpConnected` whose liveness flag reads true. -/
def sampleConnectedDead : AmqpConnected :=
  { init_state := sampleInitState, client := { id := 3 }, heartbeat_gone := true }

/-- A handshake oracle that always succeeds. -/
def sampleConnectOk : ConnectionOptions → ConnectResult :=
  fun _ => .ok { id := 3 }

/-- A handshake oracle that always fails. -/
def sampleConnectErr : ConnectionOptions → ConnectResult :=
  fun _ => .err 7

/-- A sample fresh channel. -/
def sampleChannel : Channel := { id := 4, qos := none }

/-! Claim theorems. -/

/-- C1: for every `AmqpConnected` whose liveness flag reads true at the
start of the call, both `aquire` and `release` return `Recoverable`
carrying the `InitState` embedded in that `AmqpConnected`, and never a
channel or a connected value. -/
theorem aquire_release_dead_flag (connected : AmqpConnected)
    (h : connected.heartbeat_gone = true)
    (createChannel : CreateChannelResult) (qosResult : QosResult)
    (maybe_session : Option Channel) :
    aquire connected createChannel qosResult
        = .error (.Recoverable connected.init_state) ∧
    release connected maybe_session
        = .error (.Recoverable connected.init_state) := by
  cases connected with
  | mk s c g =>
    cases g with
    | false => cases h
    | true => exact ⟨rfl, rfl⟩

/-- Witness for C1 at a concrete dead connection. -/
theorem aquire_release_dead_flag_witness :
    aquire sampleConnectedDead (.ok sampleChannel) .ok
        = .error (.Recoverable sampleInitState) ∧
    release sampleConnectedDead none
        = .error (.Recoverable sampleInitState) :=
  aquire_release_dead_flag sampleConnectedDead rfl (.ok sampleChannel) .ok none

/-- C2: for every `AmqpConnected` and every outcome of the underlying
channel-creation and QoS calls, `aquire` returns either a
`(Channel, AmqpConnected)` success or `Recoverable` with the embedded
`InitState`; it never returns the `Fatal` severity. -/
theorem aquire_never_fatal (connected : AmqpConnected)
    (createChannel : CreateChannelResult) (qosResult : QosResult) :
    ((∃ channel connected2,
        aquire connected createChannel qosResult = .ok (channel, connected2)) ∨
      aquire connected createChannel qosResult
        = .error (.Recoverable connected.init_state)) ∧
    ∀ e : Unit, aquire connected createChannel qosResult ≠ .error (.Fatal e) := by
  cases connected with
  | mk s c g =>
    cases g with
    | true => exact ⟨Or.inr rfl, fun e he => by simp [aquire] at he⟩
    | false =>
      cases createChannel with
      | err e0 => exact ⟨Or.inr rfl, fun e he => by simp [aquire] at he⟩
      | ok channel =>
        cases qosResult with
        | ok =>
            exact ⟨Or.inl ⟨_, _, rfl⟩, fun e he => by simp [aquire, basicQos] at he⟩
        | err e0 =>
            exact ⟨Or.inr rfl, fun e he => by simp [aquire, basicQos] at he⟩

/-- C3: `init` returns `Fatal` exactly when the transport pool's
`steal_resource` fails, and on a broker handshake failure it returns
`Recoverable` carrying a reconstructed `InitState` with the same
configuration and transport-pool handle. -/
theorem init_fatal_iff_steal_gone (init_state : InitState) (steal : StealResult)
    (connect : ConnectionOptions → ConnectResult) :
    (init init_state steal connect = .error (.Fatal ()) ↔ steal = .gone) ∧
    (∀ tcp_stream, steal = .ok tcp_stream →
      ∀ e, connect (connectionOptionsOf init_state.amqp_params) = .err e →
        init init_state steal connect = .error (.Recoverable init_state)) := by
  cases init_state with
  | mk p l x =>
    cases steal with
    | gone =>
        exact ⟨⟨fun _ => rfl, fun _ => rfl⟩, fun t ht => by cases ht⟩
    | ok ts =>
      refine ⟨⟨fun h => ?_, fun h => by cases h⟩, fun t ht e he => ?_⟩
      · exfalso
        cases hc : connect (connectionOptionsOf p) with
        | ok client => simp [init, hc] at h
        | err e0 => simp [init, hc] at h
      · simp [init] at he ⊢
        simp [he]

/-- Witness for C3: handshake failure at a concrete input yields
`Recoverable` with the same `InitState`. -/
theorem init_fatal_iff_steal_gone_witness :
    init sampleInitState (.ok 5) sampleConnectErr
      = .error (.Recoverable sampleInitState) :=
  (init_fatal_iff_steal_gone sampleInitState (.ok 5) sampleConnectErr).2 5 rfl 7 rfl

/-- C4: for every `AmqpConnected` whose liveness flag reads false,
`release` succeeds and returns that `AmqpConnected` unchanged, regardless
of whether a channel is passed back. -/
theorem release_live_flag (connected : AmqpConnected)
    (maybe_session : Option Channel)
    (h : connected.heartbeat_gone = false) :
    release connected maybe_session = .ok connected := by
  simp [release, h]

/-- Witness for C4 at a concrete live connection. -/
theorem release_live_flag_witness :
    release sampleConnectedLive (some sampleChannel) = .ok sampleConnectedLive :=
  release_live_flag sampleConnectedLive (some sampleChannel) rfl

/-- C5: for every `AmqpConnected`, `close` cannot fail: it always
succeeds and returns exactly the embedded `InitState`. -/
theorem close_infallible (connected : AmqpConnected) :
    close connected = .ok connected.init_state := rfl

/-- C6: a successful `init` followed immediately by `close` returns the
very `InitState` the `init` was started with; in particular its
configuration is unchanged (round-trip identity). -/
theorem init_close_round_trip (init_state : InitState) (steal : StealResult)
    (connect : ConnectionOptions → ConnectResult) (connected : AmqpConnected)
    (h : init init_state steal connect = .ok connected) :
    close connected = .ok init_state ∧
    connected.init_state.amqp_params = init_state.amqp_params := by
  cases init_state with
  | mk p l x =>
    cases steal with
    | gone => simp [init] at h
    | ok ts =>
      cases hc : connect (connectionOptionsOf p) with
      | ok client =>
          simp [init, hc] at h
          subst h
          exact ⟨rfl, rfl⟩
      | err e => simp [init, hc] at h

/-- Witness for C6 at a concrete successful `init`. -/
theorem init_close_round_trip_witness :
    close sampleConnectedLive = .ok sampleInitState ∧
    sampleConnectedLive.init_state.amqp_params = sampleInitState.amqp_params :=
  init_close_round_trip sampleInitState (.ok 5) sampleConnectOk
    sampleConnectedLive rfl

/-- C7: on the full-success path `aquire` hands out the created channel
with QoS applied at exactly the configuration's `prefetch_count`,
alongside the input `AmqpConnected` unchanged; a QoS failure instead
yields `Recoverable` with the embedded `InitState`. -/
theorem aquire_success_qos (connected : AmqpConnected) (channel : Channel)
    (h : connected.heartbeat_gone = false) :
    aquire connected (.ok channel) .ok
      = .ok ({ channel with
                 qos := some
                   { prefetch_count := connected.init_state.amqp_params.prefetch_count
                     global := false } },
             connected) ∧
    ∀ e, aquire connected (.ok channel) (.err e)
      = .error (.Recoverable connected.init_state) := by
  cases connected with
  | mk s c g =>
    cases g with
    | true => cases h
    | false => exact ⟨rfl, fun e => rfl⟩

/-- Witness for C7 at a concrete live connection and fresh channel. -/
theorem aquire_success_qos_witness :
    aquire sampleConnectedLive (.ok sampleChannel) .ok
      = .ok ({ id := 4, qos := some { prefetch_count := 32, global := false } },
             sampleConnectedLive) :=
  (aquire_success_qos sampleConnectedLive sampleChannel rfl).1

/-- C8: each successful `init` yields an `AmqpConnected` whose freshly
created liveness flag is false, and the heartbeat termination
continuation stores true into the flag for every outcome (success or
error) of the heartbeat — never false — mapping the outcome to the
task's result. -/
theorem heartbeat_flag_discipline :
    (∀ init_state steal connect connected,
      init init_state steal connect = .ok connected →
        connected.heartbeat_gone = false) ∧
    (∀ flag heartbeat_result, (heartbeatThen flag heartbeat_result).1 = true) ∧
    (∀ flag, (heartbeatThen flag (.ok ())).2 = .ok ()) ∧
    (∀ flag e, (heartbeatThen flag (.error e)).2 = .error ()) := by
  refine ⟨?_, fun flag r => rfl, fun flag => rfl, fun flag e => rfl⟩
  intro st steal connect connected h
  cases st with
  | mk p l x =>
    cases steal with
    | gone => simp [init] at h
    | ok ts =>
      cases hc : connect (connectionOptionsOf p) with
      | ok client =>
          simp [init, hc] at h
          subst h
          rfl
      | err e => simp [init, hc] at h

/-- Witness for C8: a concrete successful `init` observes a false flag. -/
theorem heartbeat_flag_discipline_witness :
    sampleConnectedLive.heartbeat_gone = false :=
  heartbeat_flag_discipline.1 sampleInitState (.ok 5) sampleConnectOk
    sampleConnectedLive rfl

/-- C9 counterexample: the configuration struct has no `host` field —
the adapter's configuration surface is only `user`, `pass`,
`prefetch_count`. -/
theorem amqp_params_no_host_field : ¬ ("host" ∈ amqpParamsFields) := by
  decide

/-- C9 (amended): the configuration surface recognizes exactly `user`
(default "guest"), `pass` (default "guest") and `prefetch_count`
(default 32), with a default-constructed configuration carrying exactly
these defaults; `frame_max` is not configurable — `init` hard-codes
262144 into the connection options, which take user and pass from the
configuration. -/
theorem amqp_params_surface :
    amqpParamsFields = ["user", "pass", "prefetch_count"] ∧
    AmqpParams.defaultParams
      = { user := "guest", pass := "guest", prefetch_count := 32 } ∧
    ∀ amqp_params,
      (connectionOptionsOf amqp_params).frame_max = 262144 ∧
      (connectionOptionsOf amqp_params).username = amqp_params.user ∧
      (connectionOptionsOf amqp_params).password = amqp_params.pass :=
  ⟨rfl, rfl, fun _p => ⟨rfl, rfl, rfl⟩⟩

/-- C10: `release` produces the same outcome for any two values of the
optional channel argument — its result depends only on the
`AmqpConnected` and its liveness flag. -/
theorem release_ignores_channel (connected : AmqpConnected)
    (ms1 ms2 : Option Channel) :
    release connected ms1 = release connected ms2 := rfl
